import Mathlib

/-!
Verification development for the Noja interpreter core: the open-addressed
hash map (`o_map.c`), the closure scope chain (`o_closure.c`), and the
AST-to-bytecode compiler (`compile.c`).

Shallow embedding conventions:
* C machine integers are modelled as `Nat`/`Int`; hash values are modelled as
  naturals (every hash appearing in this development is a small nonnegative
  int, so the C `&`-mask and `>>`-shift agree with the `Nat` operations).
* Arrays are Lean lists of the allocated length; a read of an uninitialized
  cell yields the distinguished `junkObj` (no theorem below depends on the
  contents of an uninitialized cell: every evaluated path reads initialized
  cells only).
* The C while-loops of the probe sequences are written with an explicit fuel
  argument; the C code loops until it finds an empty slot (which always
  exists at the table's load factor), so the fuel-exhaustion branch is an
  unreachable sentinel (`MErr.fuel`) that no evaluated input hits.
* Fallible C functions that set an `Error` and return NULL/0 are modelled
  with `Except`; functions that mutate the map through a pointer return the
  (possibly updated) `MapState` alongside the result, so that "the map is
  left unchanged" is an actual statement about the returned state.
-/

namespace NMap

/-- A runtime object as the map sees it: an identity (`oid`, structural
equality of two keys is equality of identities), an optional hash capability
(`hashv = none` models a type without a `hash` entry), and a compare
capability flag (`cmp = false` models a type without `compare`). -/
structure Obj where
  oid : Nat
  hashv : Option Nat
  cmp : Bool
deriving DecidableEq

/-- Marker for memory the C code allocated but never wrote. -/
def junkObj : Obj := ⟨0, none, false⟩

/-- Error channel outcomes relevant to the map code. `oom` is reported by the
allocator, `unhashable`/`incomparable` by `Object_Hash`/`Object_Compare`.
`fuel` is the unreachable sentinel of the fuelled probe loops. -/
inductive MErr where
  | oom
  | unhashable
  | incomparable
  | fuel
deriving DecidableEq

/-- Modelled from the spec: `Heap_RawMalloc` (the heap allocator) is not under
src/; per the spec its failure is an `OOM` reported through the Error channel,
which the map code propagates. -/
def allocFailsWithOOM : MErr := MErr.oom

/-- `Object_Hash`: dispatches to the key type's `hash` capability; a key
without one raises the unhashable-key error. -/
def Object_Hash (key : Obj) : Except MErr Nat :=
  match key.hashv with
  | none => .error .unhashable
  | some h => .ok h

/-- `Object_Compare`: structural equality via the key's `compare` capability;
a key without one raises the incomparable-key error. -/
def Object_Compare (key other : Obj) : Except MErr Bool :=
  if key.cmp then .ok (key.oid == other.oid) else .error .incomparable

/-- `calc_capacity` (o_map.c line 26): `mapper_size * 2.0 / 3.0` truncated to
int. For the mapper sizes that occur (powers of two within int range) the
double computation equals the integer floor, so it is modelled as `Nat`
floor division. -/
def calc_capacity (mapper_size : Nat) : Nat :=
  mapper_size * 2 / 3

/-- The mapper-size loop of `Object_NewMap` (lines 40-42): start at 8 and
double while the capacity is below `num`. The fuel is generous; the loop
terminates because the capacity grows with the size. -/
def newMapMapperSizeAux : Nat → Nat → Nat → Nat
  | 0, mapper_size, _ => mapper_size
  | fuel + 1, mapper_size, num =>
    if calc_capacity mapper_size < num then
      newMapMapperSizeAux fuel (mapper_size * 2) num
    else
      mapper_size

def newMapMapperSize (num : Nat) : Nat :=
  newMapMapperSizeAux (num + 1) 8 num

/-- Number of ints `Object_NewMap` allocates for `mapper` (line 55:
`Heap_RawMalloc(heap, sizeof(int) * capacity, error)`). -/
def newMapMapperAllocInts (num : Nat) : Nat :=
  calc_capacity (newMapMapperSize num)

/-- Number of mapper slots `Object_NewMap` initializes to -1 (lines 63-64:
`for(int i = 0; i < mapper_size; i += 1) obj->mapper[i] = -1;`). -/
def newMapMapperInitCount (num : Nat) : Nat :=
  newMapMapperSize num

/-- Number of ints `grow` allocates for the new mapper (line 132:
`Heap_RawMalloc(heap, sizeof(int) * new_mapper_size, error)`). -/
def growMapperAllocInts (mapper_size : Nat) : Nat :=
  mapper_size * 2

/-- The state of a `MapObject`: parallel arrays `mapper` (slot → entry index
or -1), `keys`/`vals` (entries in insertion order), with `count` entries. -/
structure MapState where
  mapper_size : Nat
  count : Nat
  mapper : List Int
  keys : List Obj
  vals : List Obj
deriving DecidableEq

/-- The map state produced by `Object_NewMap` when every allocation succeeds,
at the algorithmic level: `count = 0`, every mapper slot -1, `keys`/`vals`
uninitialized arrays of `capacity` cells. (The fact that the C code
allocates only `capacity` ints for the 8-slot `mapper` is recorded
separately by `newMapMapperAllocInts`.) -/
def newMapState (num : Nat) : MapState :=
  let mapper_size := newMapMapperSize num
  let capacity := calc_capacity mapper_size
  { mapper_size := mapper_size
    count := 0
    mapper := List.replicate mapper_size (-1)
    keys := List.replicate capacity junkObj
    vals := List.replicate capacity junkObj }

/-- The probe loop of `select` (o_map.c lines 89-119), faithful to the
source: at an occupied slot `i` the code compares the probed key against
`keys[i]` and on a hit returns `vals[i]` (the slot index `i`, not the entry
index `mapper[i]`). -/
def selectLoop (m : MapState) (key : Obj) : Nat → Nat → Nat → Except MErr (Option Obj)
  | _, _, 0 => .error .fuel
  | pert, i, fuel + 1 =>
    let k := m.mapper.getD i (-1)
    if k = -1 then
      .ok none
    else
      match Object_Compare key (m.keys.getD i junkObj) with
      | .error e => .error e
      | .ok true => .ok (some (m.vals.getD i junkObj))
      | .ok false =>
        let pert' := pert >>> 5
        selectLoop m key pert' ((i * 5 + pert' + 1) &&& (m.mapper_size - 1)) fuel

/-- `select` (o_map.c lines 69-123): hash the key (erroring if it has no hash
capability), then probe from `hash & mask`. -/
def select (m : MapState) (key : Obj) : Except MErr (Option Obj) :=
  let mask := m.mapper_size - 1
  match Object_Hash key with
  | .error e => .error e
  | .ok hash => selectLoop m key hash (hash &&& mask) (m.mapper_size + 8)

/-- The rehash probe of `grow` (o_map.c lines 160-175): walk the probe
sequence until an empty slot and store the entry index there. -/
def growRehashProbe (mask idx : Nat) : List Int → Nat → Nat → Nat → List Int
  | mapper, _, _, 0 => mapper
  | mapper, pert, j, fuel + 1 =>
    if mapper.getD j (-1) = -1 then
      mapper.set j (Int.ofNat idx)
    else
      let pert' := pert >>> 5
      growRehashProbe mask idx mapper pert' ((j * 5 + pert' + 1) &&& mask) fuel

/-- The hash taken inside `grow`'s rehash loop (lines 149-155). The C code
asserts it cannot fail (every key in the map was hashed on insertion); the
model reads the capability directly. -/
def hashOrZero (key : Obj) : Nat :=
  key.hashv.getD 0

/-- `grow` (o_map.c lines 125-184). The three raw allocations are modelled by
the flags `a1 a2 a3`; if any fails the function returns before touching the
map (the C code mutates `map` only in the final committing lines 179-182).
On success: the first `count` entries of `keys`/`vals` are copied in order,
the new mapper starts all-(-1) and each entry is re-probed into it. -/
def grow (m : MapState) (a1 a2 a3 : Bool) : MapState × Option MErr :=
  if a1 = false ∨ a2 = false ∨ a3 = false then
    (m, some allocFailsWithOOM)
  else
    let new_mapper_size := m.mapper_size * 2
    let new_capacity := calc_capacity new_mapper_size
    let keys' := m.keys.take m.count ++ List.replicate (new_capacity - m.count) junkObj
    let vals' := m.vals.take m.count ++ List.replicate (new_capacity - m.count) junkObj
    let mapper0 : List Int := List.replicate new_mapper_size (-1)
    let mask := new_mapper_size - 1
    let mapper' := (List.range m.count).foldl
      (fun mp i =>
        let h := hashOrZero (keys'.getD i junkObj)
        growRehashProbe mask i mp h (h &&& mask) (new_mapper_size + 8)) mapper0
    ({ mapper_size := new_mapper_size, count := m.count,
       mapper := mapper', keys := keys', vals := vals' }, none)

/-- The probe loop of `insert` (o_map.c lines 211-250), faithful to the
source: on an empty slot the key is copied and appended at entry index
`count` with `mapper[i] = count`; at an occupied slot the probed key is
compared against `keys[i]` and on a hit `vals[i]` is overwritten (the slot
index `i`, not the entry index `mapper[i]`). `Object_Copy` is modelled as
the identity (the copy affects object identity, not map structure). -/
def insertLoop (m : MapState) (key val : Obj) : Nat → Nat → Nat → MapState × Except MErr Unit
  | _, _, 0 => (m, .error .fuel)
  | pert, i, fuel + 1 =>
    let k := m.mapper.getD i (-1)
    if k = -1 then
      ({ m with
          mapper := m.mapper.set i (Int.ofNat m.count)
          keys := m.keys.set m.count key
          vals := m.vals.set m.count val
          count := m.count + 1 }, .ok ())
    else
      match Object_Compare key (m.keys.getD i junkObj) with
      | .error e => (m, .error e)
      | .ok true => ({ m with vals := m.vals.set i val }, .ok ())
      | .ok false =>
        let pert' := pert >>> 5
        insertLoop m key val pert' ((i * 5 + pert' + 1) &&& (m.mapper_size - 1)) fuel

/-- The part of `insert` after the growth check (o_map.c lines 201-250). -/
def insertHashed (m : MapState) (key val : Obj) : MapState × Except MErr Unit :=
  let mask := m.mapper_size - 1
  match Object_Hash key with
  | .error e => (m, .error e)
  | .ok hash => insertLoop m key val hash (hash &&& mask) (m.mapper_size + 8)

/-- `insert` (o_map.c lines 186-254): when `count == calc_capacity(mapper_size)`
grow first; if growth fails, return the failure with the map untouched. -/
def insert (m : MapState) (key val : Obj) (a1 a2 a3 : Bool) : MapState × Except MErr Unit :=
  if m.count = calc_capacity m.mapper_size then
    match grow m a1 a2 a3 with
    | (m', some e) => (m', .error e)
    | (m', none) => insertHashed m' key val
  else
    insertHashed m key val

/-- `count` (o_map.c lines 256-261). -/
def mapCount (m : MapState) : Nat :=
  m.count

/-! Concrete fixtures used by the claim theorems. All hash values are small
naturals and every probed slot on the evaluated paths reads initialized
cells only. -/

/-- A hashable, comparable key whose hash is 2. -/
def objA : Obj := ⟨1, some 2, true⟩

/-- A hashable, comparable key whose hash is 0. -/
def objB : Obj := ⟨2, some 0, true⟩

/-- A hashable, comparable key whose hash is 8 (collides with hash 0 under
the initial 8-slot mask but not under the grown 16-slot mask). -/
def objC : Obj := ⟨3, some 8, true⟩

/-- A hashable, comparable key whose hash is 0. -/
def objD : Obj := ⟨4, some 0, true⟩

/-- A key with no hash capability. -/
def objNoHash : Obj := ⟨9, none, true⟩

def valA : Obj := ⟨101, none, false⟩
def valB : Obj := ⟨102, none, false⟩
def valB2 : Obj := ⟨103, none, false⟩
def valC : Obj := ⟨104, none, false⟩
def valD : Obj := ⟨105, none, false⟩

/-- The fresh map of `Object_NewMap(0)`: `mapper_size = 8`, `capacity = 5`. -/
def m0 : MapState := newMapState 0

/-- `m0` after inserting `(objA, valA)` (entry 0, slot 2) and then
`(objB, valB)` (entry 1, slot 0). -/
def mAB : MapState :=
  (insert (insert m0 objA valA true true true).1 objB valB true true true).1

/-- `m0` after inserting `(objC, valC)` (entry 0, slot 0: 8 & 7 = 0) and then
`(objD, valD)` (entry 1, probed from slot 0 to the empty slot 1). -/
def mCD : MapState :=
  (insert (insert m0 objC valC true true true).1 objD valD true true true).1

/-- A full map: five keys with hashes 0..4 land in slots 0..4, reaching
`count = 5 = calc_capacity 8`. -/
def m5 : MapState :=
  (insert (insert (insert (insert (insert m0
    ⟨11, some 0, true⟩ valA true true true).1
    ⟨12, some 1, true⟩ valA true true true).1
    ⟨13, some 2, true⟩ valA true true true).1
    ⟨14, some 3, true⟩ valA true true true).1
    ⟨15, some 4, true⟩ valA true true true).1

end NMap

namespace NClosure

/-! The closure scope chain of `o_closure.c`. A closure is a `prev`-linked
chain of scopes, each holding a `vars` map whose `select` capability is
dispatched through `Object_Select`. For the walk logic the per-scope lookup
is kept abstract: a scope is a function from keys to a lookup outcome
(error, hit, or miss), which is exactly what `Object_Select(closure->vars,
key, heap, err)` provides to the loop. Keys and values are modelled as
naturals. -/

/-- Error outcomes a scope lookup can report (e.g. an unhashable key). -/
inductive SErr where
  | unhashable
  | other (code : Nat)
deriving DecidableEq

/-- A scope: the `vars.select` behaviour of one chain node. -/
def Scope : Type := Nat → Except SErr (Option Nat)

/-- `select` of o_closure.c (lines 42-59): `selected = NULL; while(closure
!= NULL && selected == NULL) { selected = Object_Select(closure->vars, key,
heap, err); if(err->occurred) return NULL; closure = closure->prev; }
return selected;` written as recursion on the chain (innermost scope
first). -/
def closureSelect : List Scope → Nat → Except SErr (Option Nat)
  | [], _ => .ok none
  | s :: rest, key =>
    match s key with
    | .error e => .error e
    | .ok (some v) => .ok (some v)
    | .ok none => closureSelect rest key

/-- Whether one scope settles the lookup: a miss (`ok none`) lets the walk
continue; a hit or an error is the walk's result. -/
def scanScope (key : Nat) (s : Scope) : Option (Except SErr (Option Nat)) :=
  match s key with
  | .ok none => none
  | r => some r

/-- The spec's description of the walk, stated independently: the result of
the first `vars.select` along the chain that yields a non-`None` value or an
error; `None` when no scope reports either. -/
def closureSelectSpec (scopes : List Scope) (key : Nat) : Except SErr (Option Nat) :=
  match scopes.findSome? (scanScope key) with
  | some r => r
  | none => .ok none

/-- A scope that misses every key. -/
def scopeMiss : Scope := fun _ => .ok none

/-- A scope that fails every lookup with the unhashable-key error. -/
def scopeErr : Scope := fun _ => .error .unhashable

/-- A scope that answers every key with the value 7. -/
def scopeHit7 : Scope := fun _ => .ok (some 7)

end NClosure

namespace NClosureNew

/-! `Object_NewClosure` of o_closure.c (lines 23-40). Runtime objects are
modelled with just enough structure to expose the type check: a closure
object carries its `prev` pointer and its `vars` field (an opaque object
id); every other object is a non-closure. -/

inductive CObj where
  | closure (prev : Option CObj) (vars : Nat)
  | nonClosure (tag : Nat)

/-- Whether an object's type descriptor is `t_closure`. -/
def CObj.isClosure : CObj → Bool
  | .closure _ _ => true
  | .nonClosure _ => false

inductive NewErr where
  | oom
  | notAClosure
deriving DecidableEq

/-- Modelled from the spec: `Heap_Malloc` (the heap allocator) is not under
src/; per the spec it fails with `OOM` through the Error channel. The
allocation outcome is the `allocOk` flag of `Object_NewClosure`. -/
def heapMallocFailure : NewErr := NewErr.oom

/-- `Object_NewClosure` (o_closure.c lines 23-40): allocate first (NULL on
failure); then `if(parent != NULL && parent->type != &t_closure)` report
"Object is not a closure" and return NULL; otherwise set `prev = parent`
and `vars = new_map`. -/
def Object_NewClosure (parent : Option CObj) (new_map : Nat) (allocOk : Bool) :
    Except NewErr CObj :=
  if allocOk = false then
    .error heapMallocFailure
  else if (match parent with
           | some p => !p.isClosure
           | none => false) then
    .error .notAClosure
  else
    .ok (.closure parent new_map)

end NClosureNew

namespace NCG

/-! The AST-to-bytecode compiler of compile.c, restricted to the node kinds
the claims exercise (integer and identifier expressions, calls, tuple
pairs, assignments, index selections, break, while, do-while, if-else,
compound statements and return). Source spans are elided (the claims state
instruction sequences with offsets elided). The `longjmp` error escape is
modelled with `Except`: the first error aborts the pass. `ExeBuilder_Append`
allocation failures are not modelled (no claim concerns builder OOM).
Promises are write-once cells identified by allocation order; `PROMISE`
operands are substituted by their resolved payload at finalization. -/

inductive Opcode where
  | PUSHINT | PUSHVAR | CALL | ASS | POP | RETURN
  | JUMP | JUMPIFNOTANDPOP | JUMPIFANDPOP
  | INSERT2 | SELECT
deriving DecidableEq

inductive Operand where
  | int (v : Int)
  | str (s : String)
  | prom (pid : Nat)
deriving DecidableEq

structure Instr where
  op : Opcode
  args : List Operand
deriving DecidableEq

/-- Codegen state: the emitted instruction list, the next promise id, and
the promise resolutions recorded so far. -/
structure CG where
  instrs : List Instr
  nextProm : Nat
  resolved : List (Nat × Int)
deriving DecidableEq

def CG.append (cg : CG) (i : Instr) : CG :=
  { cg with instrs := cg.instrs ++ [i] }

/-- `Promise_New` via `newOffsetPromise`: allocate a fresh promise id. -/
def CG.newPromise (cg : CG) : Nat × CG :=
  (cg.nextProm, { cg with nextProm := cg.nextProm + 1 })

/-- `Promise_Resolve`: record the payload of a promise. -/
def CG.resolve (cg : CG) (pid : Nat) (v : Int) : CG :=
  { cg with resolved := cg.resolved ++ [(pid, v)] }

/-- `ExeBuilder_InstrCount`. -/
def CG.instrCount (cg : CG) : Int :=
  Int.ofNat cg.instrs.length

/-- Compile-time errors, in the order the source reports them:
"Break not inside a loop", "Static buffer is too small", "Assigning to %d
variables only 1 value", "Assigning to something that it can't be assigned
to", "Tuple outside of assignment or return statement", plus the
finalization failure on an unresolved promise. `fuelOut` is the sentinel of
the fuelled recursion (the C recursion is bounded by the AST depth). -/
inductive CErr where
  | breakOutsideLoop
  | tupleTooBig
  | arityMismatch
  | badTarget
  | pairOutside
  | unresolvedProm
  | fuelOut
deriving DecidableEq

/-- AST nodes (compile.c / ASTi.h), restricted to the kinds above. `call`
carries the argument list and the callee; `ass` carries the LHS tuple tree
and the RHS; `esel` is an index-selection expression `set[idx]`. -/
inductive Node where
  | eint (v : Int)
  | ident (name : String)
  | call (argv : List Node) (callee : Node)
  | pair (a b : Node)
  | ass (lhs rhs : Node)
  | esel (setExpr idxExpr : Node)
  | nbreak
  | nwhile (cond body : Node)
  | dowhile (body cond : Node)
  | comp (stmts : List Node)
  | nret (v : Node)
  | ifelse (cond tbr : Node) (fbr : Option Node)

/-- `node->kind == NODE_EXPR`: the statement kinds that leave a value on the
stack and get a trailing `POP 1` in statement position. -/
def Node.isExpr : Node → Bool
  | .eint _ => true
  | .ident _ => true
  | .call _ _ => true
  | .pair _ _ => true
  | .ass _ _ => true
  | .esel _ _ => true
  | _ => false

/-- `flattenTupleTree` (compile.c lines 316-334): in-order flattening of the
`EXPR_PAIR` tree into at most 32 items; on the 33rd item the source reports
"Static buffer is too small". -/
def flattenTupleTree : Node → List Node → Except CErr (List Node)
  | .pair a b, acc => do
    let acc ← flattenTupleTree a acc
    flattenTupleTree b acc
  | root, acc =>
    if acc.length = 32 then .error .tupleTooBig
    else .ok (acc ++ [root])

/-- `emitInstrForNode` (compile.c lines 393-678) together with its helpers
`emitInstrForFuncCallNode` (189-206), `emitInstrForAssignmentNode` (336-391)
and `emitInstrForIfElseNode` (263-314), with the recursion made explicit on
a fuel argument. `bd` is the break-destination promise threaded through the
walk (`None` outside loops). -/
def emitInstrForNode : Nat → Node → Option Nat → CG → Except CErr CG
  | 0, _, _, _ => .error .fuelOut
  | fuel + 1, node, bd, cg =>
    match node with
    | .eint v => .ok (cg.append ⟨.PUSHINT, [.int v]⟩)
    | .ident n => .ok (cg.append ⟨.PUSHVAR, [.str n]⟩)
    | .pair _ _ => .error .pairOutside
    | .esel setExpr idxExpr => do
      let cg ← emitInstrForNode fuel setExpr bd cg
      let cg ← emitInstrForNode fuel idxExpr bd cg
      .ok (cg.append ⟨.SELECT, []⟩)
    | .call argv callee => do
      let cg ← argv.foldlM (fun cg a => emitInstrForNode fuel a bd cg) cg
      let cg ← emitInstrForNode fuel callee bd cg
      .ok (cg.append ⟨.CALL, [.int (Int.ofNat argv.length), .int 1]⟩)
    | .ass lhs rhs => do
      let tuple ← flattenTupleTree lhs []
      let cg ←
        if tuple.length = 1 then
          emitInstrForNode fuel rhs bd cg
        else
          match rhs with
          | .call argv callee => do
            let cg ← argv.foldlM (fun cg a => emitInstrForNode fuel a bd cg) cg
            let cg ← emitInstrForNode fuel callee bd cg
            .ok (cg.append ⟨.CALL, [.int (Int.ofNat argv.length),
                                    .int (Int.ofNat tuple.length)]⟩)
          | _ => .error .arityMismatch
      (List.range tuple.length).foldlM (fun cg i => do
        let cg ←
          match tuple.getD (tuple.length - i - 1) Node.nbreak with
          | .ident n => .ok (cg.append ⟨.ASS, [.str n]⟩)
          | .esel setExpr idxExpr => do
            let cg ← emitInstrForNode fuel setExpr bd cg
            let cg ← emitInstrForNode fuel idxExpr bd cg
            .ok (cg.append ⟨.INSERT2, []⟩)
          | _ => .error .badTarget
        if i + 1 < tuple.length then
          .ok (cg.append ⟨.POP, [.int 1]⟩)
        else
          .ok cg) cg
    | .nbreak =>
      match bd with
      | none => .error .breakOutsideLoop
      | some pid => .ok (cg.append ⟨.JUMP, [.prom pid]⟩)
    | .nwhile cond body => do
      let (pStart, cg) := cg.newPromise
      let (pEnd, cg) := cg.newPromise
      let cg := cg.resolve pStart cg.instrCount
      let cg ← emitInstrForNode fuel cond bd cg
      let cg := cg.append ⟨.JUMPIFNOTANDPOP, [.prom pEnd]⟩
      let cg ← emitInstrForNode fuel body (some pEnd) cg
      let cg := if body.isExpr then cg.append ⟨.POP, [.int 1]⟩ else cg
      let cg := cg.append ⟨.JUMP, [.prom pStart]⟩
      .ok (cg.resolve pEnd cg.instrCount)
    | .dowhile body cond => do
      let (pEnd, cg) := cg.newPromise
      let start := cg.instrCount
      let cg ← emitInstrForNode fuel body (some pEnd) cg
      let cg := if body.isExpr then cg.append ⟨.POP, [.int 1]⟩ else cg
      let cg ← emitInstrForNode fuel cond bd cg
      let cg := cg.append ⟨.JUMPIFANDPOP, [.int start]⟩
      .ok (cg.resolve pEnd cg.instrCount)
    | .comp stmts =>
      stmts.foldlM (fun cg stmt => do
        let cg ← emitInstrForNode fuel stmt bd cg
        if stmt.isExpr then .ok (cg.append ⟨.POP, [.int 1]⟩) else .ok cg) cg
    | .nret v => do
      let tuple ← flattenTupleTree v []
      let cg ← tuple.foldlM (fun cg n => emitInstrForNode fuel n bd cg) cg
      .ok (cg.append ⟨.RETURN, [.int (Int.ofNat tuple.length)]⟩)
    | .ifelse cond tbr fbr => do
      let cg ← emitInstrForNode fuel cond bd cg
      match fbr with
      | some fb => do
        let (pElse, cg) := cg.newPromise
        let (pDone, cg) := cg.newPromise
        let cg := cg.append ⟨.JUMPIFNOTANDPOP, [.prom pElse]⟩
        let cg ← emitInstrForNode fuel tbr bd cg
        let cg := if tbr.isExpr then cg.append ⟨.POP, [.int 1]⟩ else cg
        let cg := cg.append ⟨.JUMP, [.prom pDone]⟩
        let cg := cg.resolve pElse cg.instrCount
        let cg ← emitInstrForNode fuel fb bd cg
        let cg := if fb.isExpr then cg.append ⟨.POP, [.int 1]⟩ else cg
        .ok (cg.resolve pDone cg.instrCount)
      | none => do
        let (pDone, cg) := cg.newPromise
        let cg := cg.append ⟨.JUMPIFNOTANDPOP, [.prom pDone]⟩
        let cg ← emitInstrForNode fuel tbr bd cg
        let cg := if tbr.isExpr then cg.append ⟨.POP, [.int 1]⟩ else cg
        .ok (cg.resolve pDone cg.instrCount)

/-- Finalization (`ExeBuilder_Finalize`): substitute every `PROMISE` operand
by its resolved payload; a promise with no recorded resolution is the
internal unresolved-jump-target failure. -/
def resolveOperand (res : List (Nat × Int)) : Operand → Except CErr Operand
  | .prom pid =>
    match res.find? (fun p => p.1 == pid) with
    | some p => .ok (.int p.2)
    | none => .error .unresolvedProm
  | o => .ok o

def finalize (cg : CG) : Except CErr (List Instr) :=
  cg.instrs.mapM (fun i => do
    let args ← i.args.mapM (resolveOperand cg.resolved)
    .ok (⟨i.op, args⟩ : Instr))

def cgInit : CG := ⟨[], 0, []⟩

/-- `compile` (compile.c lines 711-731): emit the root with no break
destination, append the program-level `RETURN 0`, finalize. -/
def compile (fuel : Nat) (root : Node) : Except CErr (List Instr) := do
  let cg ← emitInstrForNode fuel root none cgInit
  let cg := cg.append ⟨.RETURN, [.int 0]⟩
  finalize cg

/-- Modelled from the spec: the parser (not under src/) produces, for the
program `a, b = f(x);`, an assignment expression whose LHS is the pair
`(a, b)` and whose RHS is the call `f(x)` (spec section 8, scenario 4). -/
def astTupleCall : Node :=
  .ass (.pair (.ident "a") (.ident "b")) (.call [.ident "x"] (.ident "f"))

/-- A `break` statement at program top level (no enclosing loop). -/
def astBareBreak : Node := .comp [.nbreak]

/-- `while 1: break` — a break with an enclosing loop. -/
def astWhileBreak : Node := .nwhile (.eint 1) .nbreak

end NCG

/-! Theorems. -/

/-- Reads of a fully (-1)-initialized mapper yield -1 at every index. -/
theorem getD_replicate_neg1 : ∀ (n i : Nat), (List.replicate n (-1 : Int)).getD i (-1) = -1 := by
  intro n
  induction n with
  | zero => intro i; cases i <;> rfl
  | succ n ih =>
    intro i
    cases i with
    | zero => rfl
    | succ i => exact ih i

/-- Claim C1: the map of `Object_NewMap(0)` after the successful inserts of
`(objA, valA)` (hash 2, entry 0, slot 2) and `(objB, valB)` (hash 0, entry 1,
slot 0). `objB`'s entry is recorded (`mapper[0] = 1`, `vals[1] = valB`), yet
`select(objB)` returns `None`: the lookup at slot 0 compares `objB` against
`keys[0] = objA` (the slot index) instead of `keys[mapper[0]] = objB` (the
entry index the claim names), fails, probes to the empty slot 1 and reports
a miss. Every cell read on this path is initialized. -/
theorem C1_select_returns_none_for_inserted_key :
    (NMap.insert NMap.m0 NMap.objA NMap.valA true true true).2 = .ok () ∧
    (NMap.insert (NMap.insert NMap.m0 NMap.objA NMap.valA true true true).1
      NMap.objB NMap.valB true true true).2 = .ok () ∧
    NMap.mAB.mapper.getD 0 (-1) = 1 ∧
    NMap.mAB.vals.getD 1 NMap.junkObj = NMap.valB ∧
    NMap.select NMap.mAB NMap.objB = .ok none :=
  ⟨rfl, rfl, rfl, rfl, rfl⟩

/-- Claim C2: re-inserting the already-present key `objB` (hash 0) into
`mAB` with a new value appends a duplicate entry instead of overwriting:
the probe at slot 0 compares `objB` against `keys[0] = objA` (slot index,
not `keys[mapper[0]] = objB`), fails, reaches the empty slot 1 and appends:
`count` goes from 2 to 3, `keys[2]` becomes a second copy of `objB`, and
the old value `vals[1] = valB` is left in place — contradicting the claimed
`vals[mapper[i]] = v'` overwrite with `count` and `keys` unchanged. -/
theorem C2_reinsert_appends_instead_of_overwriting :
    NMap.mAB.count = 2 ∧
    (NMap.insert NMap.mAB NMap.objB NMap.valB2 true true true).2 = .ok () ∧
    (NMap.insert NMap.mAB NMap.objB NMap.valB2 true true true).1.count = 3 ∧
    (NMap.insert NMap.mAB NMap.objB NMap.valB2 true true true).1.keys.getD 2 NMap.junkObj
      = NMap.objB ∧
    (NMap.insert NMap.mAB NMap.objB NMap.valB2 true true true).1.vals.getD 1 NMap.junkObj
      = NMap.valB :=
  ⟨rfl, rfl, rfl, rfl, rfl⟩

/-- Claim C3: `Object_NewMap(0)` chooses `mapper_size = 8` but allocates only
`sizeof(int) * capacity` = 5 ints for `mapper` (o_map.c line 55), while its
initialization loop writes `mapper_size` = 8 slots (lines 63-64) and
probing masks indices over all 8 slots — so the mapper array does not have
`mapper_size` slots as the claim states (`grow`, by contrast, allocates
`sizeof(int) * new_mapper_size`, line 132). -/
theorem C3_newmap_mapper_allocation_undersized :
    NMap.newMapMapperSize 0 = 8 ∧
    NMap.newMapMapperAllocInts 0 = 5 ∧
    NMap.newMapMapperAllocInts 0 < NMap.newMapMapperInitCount 0 ∧
    NMap.growMapperAllocInts 8 = 16 :=
  ⟨rfl, rfl, by decide, rfl⟩

/-- Claim C4: inserting into a full map (`count == calc_capacity(mapper_size)`)
when any of `grow`'s three raw allocations fails returns failure with the
OOM error and the map exactly as it was: `grow` returns before its final
committing stores, and `insert` propagates the failure before hashing or
probing. -/
theorem C4_insert_oom_leaves_map_unchanged
    (m : NMap.MapState) (key val : NMap.Obj) (a1 a2 a3 : Bool)
    (hfull : m.count = NMap.calc_capacity m.mapper_size)
    (hfail : a1 = false ∨ a2 = false ∨ a3 = false) :
    NMap.insert m key val a1 a2 a3 = (m, .error .oom) := by
  have hgrow : NMap.grow m a1 a2 a3 = (m, some NMap.MErr.oom) := by
    unfold NMap.grow NMap.allocFailsWithOOM
    rw [if_pos hfail]
  unfold NMap.insert
  rw [if_pos hfull, hgrow]

/-- Witness for C4 at the concrete full map `m5` (count = 5 = capacity of 8)
with the first allocation failing. -/
theorem C4_insert_oom_witness :
    NMap.m5.count = NMap.calc_capacity NMap.m5.mapper_size ∧
    NMap.insert NMap.m5 ⟨16, some 5, true⟩ NMap.valA false true true
      = (NMap.m5, .error .oom) :=
  ⟨rfl, C4_insert_oom_leaves_map_unchanged NMap.m5 ⟨16, some 5, true⟩ NMap.valA
    false true true rfl (Or.inl rfl)⟩

/-- Claim C5: on the map `mCD` (`objC` hash 8 at entry 0 slot 0, `objD`
hash 0 at entry 1 slot 1), `select(objD) = valD` holds before growth; a
successful `grow` doubles `mapper_size` to 16 and preserves the first
`count` keys and values in order exactly as the claim states — but
`select(objD)` afterwards returns `None`: `objD`'s entry was rehashed to
slot 0, where the lookup compares `objD` against `keys[0] = objC` (slot
index instead of `keys[mapper[0]] = objD`), fails, and probes to the now
empty slot 1. Every cell read on these paths is initialized. -/
theorem C5_grow_preserves_entries_but_breaks_select :
    NMap.select NMap.mCD NMap.objD = .ok (some NMap.valD) ∧
    (NMap.grow NMap.mCD true true true).2 = none ∧
    (NMap.grow NMap.mCD true true true).1.mapper_size = 16 ∧
    (NMap.grow NMap.mCD true true true).1.keys.take 2 = NMap.mCD.keys.take 2 ∧
    (NMap.grow NMap.mCD true true true).1.vals.take 2 = NMap.mCD.vals.take 2 ∧
    NMap.select (NMap.grow NMap.mCD true true true).1 NMap.objD = .ok none :=
  ⟨rfl, rfl, rfl, rfl, rfl, rfl⟩

/-- Claim C6, counterexample: `select` on the empty map of `Object_NewMap(0)`
with a key lacking the hash capability raises the unhashable-key error —
the code hashes the key before looking at the table, so the claimed
"returns None without invoking hash" is false. -/
theorem C6_select_empty_map_invokes_hash :
    NMap.select NMap.m0 NMap.objNoHash = .error .unhashable :=
  rfl

/-- Claim C6 as amended: `select` on the empty map returns `None` for every
key that implements hash (the first probed slot is empty); but hash is
always invoked first, so a key lacking it errors even on an empty map. -/
theorem C6_amended_select_empty_map (key : NMap.Obj) (h : Nat)
    (hk : key.hashv = some h) :
    NMap.select (NMap.newMapState 0) key = .ok none := by
  have hhash : NMap.Object_Hash key = .ok h := by
    unfold NMap.Object_Hash
    rw [hk]
  unfold NMap.select
  rw [hhash]
  show NMap.selectLoop (NMap.newMapState 0) key h
    (h &&& ((NMap.newMapState 0).mapper_size - 1)) (15 + 1) = .ok none
  unfold NMap.selectLoop
  rw [show (NMap.newMapState 0).mapper = List.replicate 8 (-1) from rfl,
    getD_replicate_neg1]
  rfl

/-- Witness for the amended C6 at a concrete hashable key. -/
theorem C6_amended_witness :
    NMap.select (NMap.newMapState 0) ⟨5, some 3, true⟩ = .ok none :=
  C6_amended_select_empty_map ⟨5, some 3, true⟩ 3 rfl

/-- Claim C7: compiling `a, b = f(x);` yields exactly
`[PUSHVAR "x"; PUSHVAR "f"; CALL 1,2; ASS "b"; POP 1; ASS "a"; RETURN 0]`:
the LHS targets are stored in reverse with a `POP 1` between successive
stores and none after the last. -/
theorem C7_tuple_assignment_compiles_reversed :
    NCG.compile 100 NCG.astTupleCall = .ok
      [⟨.PUSHVAR, [.str "x"]⟩, ⟨.PUSHVAR, [.str "f"]⟩,
       ⟨.CALL, [.int 1, .int 2]⟩, ⟨.ASS, [.str "b"]⟩, ⟨.POP, [.int 1]⟩,
       ⟨.ASS, [.str "a"]⟩, ⟨.RETURN, [.int 0]⟩] :=
  rfl

/-- Claim C8: lowering a `break` node fails with the break-outside-loop user
error exactly when the threaded break destination is `None`; when a
destination promise exists the break lowers to the single `JUMP` targeting
that promise. Concretely, a top-level `break` makes `compile` fail with
`BreakOutsideLoop`, while `while 1: break` compiles with the break's `JUMP`
resolved to the end-of-loop index 4. -/
theorem C8_break_lowering :
    (∀ (f : Nat) (bd : Option Nat) (cg : NCG.CG),
      NCG.emitInstrForNode (f + 1) .nbreak bd cg = .error .breakOutsideLoop ↔ bd = none) ∧
    (∀ (f pid : Nat) (cg : NCG.CG),
      NCG.emitInstrForNode (f + 1) .nbreak (some pid) cg
        = .ok (cg.append ⟨.JUMP, [.prom pid]⟩)) ∧
    NCG.compile 100 NCG.astBareBreak = .error .breakOutsideLoop ∧
    NCG.compile 100 NCG.astWhileBreak = .ok
      [⟨.PUSHINT, [.int 1]⟩, ⟨.JUMPIFNOTANDPOP, [.int 4]⟩, ⟨.JUMP, [.int 4]⟩,
       ⟨.JUMP, [.int 0]⟩, ⟨.RETURN, [.int 0]⟩] := by
  refine ⟨?_, ?_, rfl, rfl⟩
  · intro f bd cg
    cases bd with
    | none => simp [NCG.emitInstrForNode]
    | some pid => simp [NCG.emitInstrForNode]
  · intro f pid cg
    rfl

/-- Unfolding equation of the chain walk on a nonempty chain. -/
theorem closureSelect_cons (s : NClosure.Scope) (rest : List NClosure.Scope) (key : Nat) :
    NClosure.closureSelect (s :: rest) key =
      match s key with
      | .error e => .error e
      | .ok (some v) => .ok (some v)
      | .ok none => NClosure.closureSelect rest key :=
  rfl

/-- The chain walk of `o_closure.c` agrees with the spec's first-hit
description on every chain and key. -/
theorem closureSelect_eq_spec (scopes : List NClosure.Scope) (key : Nat) :
    NClosure.closureSelect scopes key = NClosure.closureSelectSpec scopes key := by
  induction scopes with
  | nil => rfl
  | cons s rest ih =>
    unfold NClosure.closureSelect NClosure.closureSelectSpec
    rw [List.findSome?_cons]
    cases hs : s key with
    | error e => simp [NClosure.scanScope, hs]
    | ok o =>
      cases o with
      | none =>
        simp only [NClosure.scanScope, hs]
        rw [ih]
        rfl
      | some v => simp [NClosure.scanScope, hs]

/-- Claim C9: `select` on a closure chain returns the first non-`None`
result of `vars.select` walking innermost to outermost (`None` when every
scope misses, by the spec-equality part), and an error in any scope aborts
the walk immediately: the result is that error and is independent of every
outer scope. -/
theorem C9_closure_select_walk :
    (∀ (scopes : List NClosure.Scope) (key : Nat),
      NClosure.closureSelect scopes key = NClosure.closureSelectSpec scopes key) ∧
    (∀ (pre : List NClosure.Scope) (s : NClosure.Scope)
       (post post' : List NClosure.Scope) (key : Nat) (e : NClosure.SErr),
      (∀ t ∈ pre, t key = .ok none) → s key = .error e →
      NClosure.closureSelect (pre ++ s :: post) key = .error e ∧
      NClosure.closureSelect (pre ++ s :: post) key
        = NClosure.closureSelect (pre ++ s :: post') key) := by
  constructor
  · exact closureSelect_eq_spec
  · intro pre s post post' key e
    induction pre with
    | nil =>
      intro _ hs
      constructor
      · show NClosure.closureSelect (s :: post) key = .error e
        rw [closureSelect_cons, hs]
      · show NClosure.closureSelect (s :: post) key
          = NClosure.closureSelect (s :: post') key
        rw [closureSelect_cons, closureSelect_cons, hs]
    | cons t rest ih =>
      intro hpre hs
      have ht : t key = .ok none := hpre t (List.mem_cons_self t rest)
      have hrest : ∀ u ∈ rest, u key = .ok none :=
        fun u hu => hpre u (List.mem_cons_of_mem t hu)
      have step : ∀ L, NClosure.closureSelect (t :: L) key
          = NClosure.closureSelect L key := by
        intro L
        rw [closureSelect_cons, ht]
      constructor
      · rw [List.cons_append, step]
        exact (ih hrest hs).1
      · rw [List.cons_append, List.cons_append, step, step]
        exact (ih hrest hs).2

/-- Witness for C9: in the chain [miss, error, hit], the walk stops at the
erroring middle scope and never reaches the hit. -/
theorem C9_closure_select_walk_witness :
    NClosure.closureSelect
      [NClosure.scopeMiss, NClosure.scopeErr, NClosure.scopeHit7] 0
      = .error .unhashable :=
  (C9_closure_select_walk.2 [NClosure.scopeMiss] NClosure.scopeErr
    [NClosure.scopeHit7] [] 0 .unhashable
    (fun t ht => by rw [List.mem_singleton] at ht; rw [ht]; rfl) rfl).1

/-- Claim C10: with the heap allocation succeeding, `Object_NewClosure`
reports "Object is not a closure" (and returns NULL) exactly on a non-NULL
non-closure parent; on a NULL or closure parent it returns a fresh closure
whose `prev` is the parent and whose `vars` is `new_map`. -/
theorem C10_new_closure_parent_check (parent : Option NClosureNew.CObj) (nm : Nat) :
    ((∃ p, parent = some p ∧ p.isClosure = false) →
      NClosureNew.Object_NewClosure parent nm true = .error .notAClosure) ∧
    (parent = none →
      NClosureNew.Object_NewClosure parent nm true = .ok (.closure none nm)) ∧
    (∀ p, parent = some p → p.isClosure = true →
      NClosureNew.Object_NewClosure parent nm true = .ok (.closure parent nm)) := by
  refine ⟨?_, ?_, ?_⟩
  · rintro ⟨p, rfl, hp⟩
    simp [NClosureNew.Object_NewClosure, hp]
  · rintro rfl
    rfl
  · rintro p rfl hp
    simp [NClosureNew.Object_NewClosure, hp]

/-- Witness for C10 at a non-closure parent object. -/
theorem C10_new_closure_parent_check_witness :
    NClosureNew.Object_NewClosure (some (.nonClosure 0)) 5 true
      = .error .notAClosure :=
  (C10_new_closure_parent_check (some (.nonClosure 0)) 5).1 ⟨.nonClosure 0, rfl, rfl⟩
